import Mathlib

/-!
# Verification of the Etsy dashboard backend

A shallow embedding of the two components of the service, translated from
`app/routers/fees.py`, `app/routers/auth.py`, `app/config.py` and
`app/database/supabase_client.py`, together with proofs of the testable
properties stated in the specification.

Modelling conventions:
* Monetary values are exact rationals.  Python's `round(x, nd)` is modelled by
  `pyRound nd`, rounding to `nd` decimal places with ties rounded half-up
  (the specification §4.1 permits either half-even or half-up, and an IEEE
  double is never an exact tie at a decimal boundary, so away from ties the
  two rules agree with the floating-point code).
* The persistence store (Supabase) is modelled as an explicit in-memory state
  `DB`; each query of the code is translated to the corresponding list
  operation on that state.
* The JWT codec is modelled symbolically: a token carries its payload and the
  secret it was signed with, and decoding succeeds exactly when the secret
  matches the server's secret and the token is not expired.  This is the
  standard idealization of an unforgeable MAC: a token an attacker fabricates
  or tampers with is one not signed with the server secret.
* bcrypt hashing (an external library primitive) is idealized as a
  deterministic tagging scheme in which verification succeeds exactly on the
  original password.
-/

/-- Python's `round(x, nd)` on exact rationals: round to `nd` decimal places
(ties half-up via Mathlib's `round`). -/
def pyRound (nd : ℕ) (x : ℚ) : ℚ :=
  (round (x * 10 ^ nd) : ℤ) / 10 ^ nd

deriving instance DecidableEq for Except

/-- Checked division, modelling Python's `/` which raises `ZeroDivisionError`
on a zero divisor. -/
def qdiv (x y : ℚ) : Except String ℚ :=
  if y = 0 then .error "ZeroDivisionError" else .ok (x / y)

/-! ## Fee calculator (`app/routers/fees.py`) -/

/-- Request schema `FeeCalculationRequest`: pydantic enforces
`sale_price > 0`, `production_cost ≥ 0`, `shipping_cost ≥ 0`. -/
structure FeeCalculationRequest where
  sale_price : ℚ
  production_cost : ℚ := 0
  shipping_cost : ℚ := 0
  offsite_ads : Bool := false
  deriving Repr, DecidableEq

/-- The pydantic field constraints of `FeeCalculationRequest`
(`gt=0`, `ge=0`, `ge=0`). -/
def FeeCalculationRequest.valid (r : FeeCalculationRequest) : Prop :=
  0 < r.sale_price ∧ 0 ≤ r.production_cost ∧ 0 ≤ r.shipping_cost

instance (r : FeeCalculationRequest) : Decidable r.valid := by
  unfold FeeCalculationRequest.valid; infer_instance

/-- Response schema `FeeBreakdown`. -/
structure FeeBreakdown where
  transaction_fee : ℚ
  listing_fee : ℚ
  payment_processing : ℚ
  offsite_ads : ℚ
  total_fees : ℚ
  deriving Repr, DecidableEq

/-- Response schema `FeeCalculationResponse`. -/
structure FeeCalculationResponse where
  fees : FeeBreakdown
  net_revenue : ℚ
  total_costs : ℚ
  profit : ℚ
  profit_margin : ℚ
  deriving Repr, DecidableEq

/-- `calculate_etsy_fees` from `app/routers/fees.py`.  The only fallible step
is the division in `profit / sale_price * 100`, guarded in the source by
`if sale_price > 0`. -/
def calculate_etsy_fees (sale_price : ℚ) (production_cost : ℚ := 0)
    (shipping_cost : ℚ := 0) (offsite_ads : Bool := false) :
    Except String FeeCalculationResponse :=
  let transaction_fee := pyRound 2 (sale_price * (65 / 1000))
  let listing_fee : ℚ := 20 / 100
  let payment_processing := pyRound 2 (sale_price * (3 / 100) + 25 / 100)
  let offsite_ads_fee := if offsite_ads then pyRound 2 (sale_price * (15 / 100)) else 0
  let total_fees :=
    pyRound 2 (transaction_fee + listing_fee + payment_processing + offsite_ads_fee)
  let net_revenue := pyRound 2 (sale_price - total_fees)
  let total_costs := pyRound 2 (production_cost + shipping_cost)
  let profit := pyRound 2 (net_revenue - total_costs)
  let profit_marginE : Except String ℚ :=
    if 0 < sale_price then
      (qdiv profit sale_price).map fun q => pyRound 1 (q * 100)
    else .ok 0
  profit_marginE.map fun profit_margin =>
    { fees := { transaction_fee, listing_fee, payment_processing,
                offsite_ads := offsite_ads_fee, total_fees }
      net_revenue, total_costs, profit, profit_margin }

/-- A uniform HTTP error value: status code plus detail message. -/
structure HttpError where
  status : ℕ
  detail : String
  deriving Repr, DecidableEq

/-- The `POST /calculate-fees` endpoint: pydantic validation rejects invalid
bodies with a 422 before the handler runs; inside the handler any exception
from `calculate_etsy_fees` is surfaced as a 500. -/
def calculate_fees (r : FeeCalculationRequest) :
    Except HttpError FeeCalculationResponse :=
  if r.valid then
    match calculate_etsy_fees r.sale_price r.production_cost r.shipping_cost
        r.offsite_ads with
    | .ok resp => .ok resp
    | .error e => .error ⟨500, "Error calculating fees: " ++ e⟩
  else .error ⟨422, "Invalid request"⟩

/-! ## Settings (`app/config.py`) -/

namespace settings

/-- `Settings.JWT_SECRET` (development default). -/
def JWT_SECRET : String := "your-secret-key-change-in-prod"

/-- `Settings.JWT_EXPIRATION_HOURS`. -/
def JWT_EXPIRATION_HOURS : ℤ := 24

end settings

/-! ## JWT codec (`create_access_token` / `verify_token` in `app/routers/auth.py`)

The codec is modelled symbolically: a token is its payload together with the
secret it was signed with, and decoding succeeds exactly when that secret is
the server's.  This is the idealization of an unforgeable MAC; a tampered or
fabricated token is one not signed with the server secret. -/

/-- The JWT payload `{user_id, email, exp}`; `exp` in seconds. -/
structure TokenPayload where
  user_id : String
  email : String
  exp : ℤ
  deriving Repr, DecidableEq

/-- A signed token: payload plus the signing secret (idealized MAC). -/
inductive Token where
  | signed (payload : TokenPayload) (secret : String)
  deriving Repr, DecidableEq

/-- The payload carried by a token. -/
def Token.payload : Token → TokenPayload
  | .signed p _ => p

/-- The two error kinds of `jwt.decode`: `jwt.ExpiredSignatureError` and
`jwt.InvalidTokenError`. -/
inductive JwtError where
  | expired
  | invalid
  deriving Repr, DecidableEq

/-- `jwt.decode`: signature check first (wrong secret ⇒ invalid), then the
`exp` claim (expired when `exp ≤ now`). -/
def jwt_decode (t : Token) (secret : String) (now : ℤ) :
    Except JwtError TokenPayload :=
  match t with
  | .signed p s =>
    if s ≠ secret then .error .invalid
    else if p.exp ≤ now then .error .expired
    else .ok p

/-- `create_access_token`: payload `{user_id, email, exp = now + 24h}` signed
with `settings.JWT_SECRET` (`JWT_EXPIRATION_HOURS` hours, in seconds). -/
def create_access_token (user_id : String) (email : String) (now : ℤ) : Token :=
  .signed { user_id, email, exp := now + settings.JWT_EXPIRATION_HOURS * 3600 }
    settings.JWT_SECRET

/-- `verify_token`: decode with the server secret, mapping
`ExpiredSignatureError` to 401 "Token expired" and `InvalidTokenError` to
401 "Invalid token". -/
def verify_token (t : Token) (now : ℤ) : Except HttpError TokenPayload :=
  match jwt_decode t settings.JWT_SECRET now with
  | .ok payload => .ok payload
  | .error .expired => .error ⟨401, "Token expired"⟩
  | .error .invalid => .error ⟨401, "Invalid token"⟩

/-! ## Password hashing (`hash_password` / `verify_password`)

bcrypt is an external library primitive; it is idealized as a deterministic
tagging scheme in which verification succeeds exactly on the original
password. -/

/-- `hash_password` (idealized bcrypt). -/
def hash_password (password : String) : String :=
  "bcrypt-hash:" ++ password

/-- `verify_password` (idealized bcrypt check). -/
def verify_password (plain_password : String) (hashed_password : String) : Bool :=
  hashed_password == hash_password plain_password

/-- Python's `str.lower` (ASCII case folding), written with `List.map` so
that it evaluates by kernel reduction. -/
def lower (s : String) : String := ⟨s.data.map Char.toLower⟩

/-! ## Persistence store (`app/database/supabase_client.py` collaborator)

The Supabase store is modelled as an explicit state: the `customers` table,
the `customer_products` table (rows `(customer_id, product_id)`), the id the
store will assign to the next inserted row, and two failure switches modelling
the store rejecting an insert or failing the `last_login` update. -/

/-- A row of the `customers` table, with the fields written by `register` and
read by `login` / `get_user_info`.  Fields the code reads with `.get(key,
default)` are `Option`s; fields it reads with `[key]` are plain. -/
structure Customer where
  id : String
  email : String
  password_hash : String
  shop_name : Option String := none
  access_key : String := ""
  data_consent : Bool := true
  consent_updated_at : Option String := none
  signup_date : Option String := none
  usage_count : Option ℕ := none
  usage_reset_date : Option String := none
  is_premium : Option Bool := none
  is_email_verified : Bool := false
  last_login : Option String := none
  created_at : Option String := none
  deriving Repr, DecidableEq

/-- The state of the persistence store. -/
structure DB where
  customers : List Customer := []
  customer_products : List (String × String) := []
  next_id : ℕ := 0
  insert_fails : Bool := false
  update_last_login_fails : Bool := false
  deriving Repr, DecidableEq

/-- `supabase.table('customers').select(...).eq('email', e).execute().data`. -/
def DB.find_by_email (db : DB) (email : String) : List Customer :=
  db.customers.filter fun c => c.email == email

/-- `supabase.table('customers').select('*').eq('id', i).execute().data`. -/
def DB.find_by_id (db : DB) (id : String) : List Customer :=
  db.customers.filter fun c => c.id == id

/-- `supabase.table('customer_products').select('product_id')
.eq('customer_id', cid).execute().data`. -/
def DB.product_rows (db : DB) (customer_id : String) : List (String × String) :=
  db.customer_products.filter fun r => r.1 == customer_id

/-- The `product_id` tags linked to a customer. -/
def DB.products_of (db : DB) (customer_id : String) : List String :=
  (db.product_rows customer_id).map (·.2)

/-- `supabase.table('customers').update({'last_login': ts}).eq('id', cid)
.execute()`: fails when the store's failure switch is on. -/
def DB.update_last_login (db : DB) (customer_id : String) (ts : String) :
    Except String DB :=
  if db.update_last_login_fails then .error "store failure"
  else .ok { db with
    customers := db.customers.map fun c =>
      if c.id == customer_id then { c with last_login := some ts } else c }

/-! ## Account endpoints (`app/routers/auth.py`) -/

/-- Response schema `UserResponse`. -/
structure UserResponse where
  user_id : String
  email : String
  name : Option String
  is_premium : Bool
  access_token : Token
  deriving Repr, DecidableEq

/-- Response schema `UserInfo`. -/
structure UserInfo where
  user_id : String
  email : String
  name : Option String
  is_premium : Bool
  analyses_this_week : ℕ
  analyses_limit : ℕ
  created_at : String
  deriving Repr, DecidableEq

/-- `POST /auth/register`.  `now` is the wall clock in seconds (stored
timestamps are its rendering); `access_key` models the random
`sha256(uuid4())` key.  Returns the response together with the store state
after the call. -/
def register (db : DB) (email : String) (password : String)
    (name : Option String) (now : ℤ) (access_key : String) :
    Except HttpError UserResponse × DB :=
  let existing := db.find_by_email (lower email)
  if existing ≠ [] then
    (.error ⟨400, "Email already registered"⟩, db)
  else
    let password_hash := hash_password password
    let new_customer : Customer :=
      { id := toString db.next_id
        email := lower email
        password_hash
        shop_name := name
        access_key
        data_consent := true
        consent_updated_at := some (toString now)
        signup_date := some (toString now)
        usage_count := some 0
        usage_reset_date := some (toString now)
        is_premium := some false
        is_email_verified := false }
    if db.insert_fails then
      (.error ⟨500, "Failed to create user"⟩, db)
    else
      let db' := { db with customers := db.customers ++ [new_customer]
                           next_id := db.next_id + 1 }
      let customer_id := new_customer.id
      let access_token := create_access_token customer_id (lower email) now
      (.ok { user_id := customer_id, email := lower email, name
             is_premium := false, access_token }, db')

/-- `POST /auth/login`.  Returns the response together with the store state
after the call (the best-effort `last_login` update may change it). -/
def login (db : DB) (email : String) (password : String) (now : ℤ) :
    Except HttpError UserResponse × DB :=
  match db.find_by_email (lower email) with
  | [] => (.error ⟨401, "Invalid email or password"⟩, db)
  | customer :: _ =>
    if verify_password password customer.password_hash then
      let db' := match db.update_last_login customer.id (toString now) with
        | .ok d => d
        | .error _ => db
      let access_token := create_access_token customer.id customer.email now
      (.ok { user_id := customer.id, email := customer.email
             name := customer.shop_name
             is_premium := customer.is_premium.getD false, access_token }, db')
    else (.error ⟨401, "Invalid email or password"⟩, db)

/-- `GET /auth/users/{user_id}`. -/
def get_user_info (db : DB) (user_id : String) (token : Token) (now : ℤ) :
    Except HttpError UserInfo :=
  match verify_token token now with
  | .error e => .error e
  | .ok payload =>
    if payload.user_id ≠ user_id then
      .error ⟨403, "Not authorized to access this user's data"⟩
    else
      match db.find_by_id user_id with
      | [] => .error ⟨404, "User not found"⟩
      | customer :: _ =>
        let rows := db.product_rows user_id
        let has_insights :=
          if rows ≠ [] then ((rows.map (·.2)).contains "insights") else false
        let usage_count := customer.usage_count.getD 0
        let analyses_limit : ℕ := if has_insights then 999999 else 10
        .ok { user_id := customer.id, email := customer.email
              name := customer.shop_name
              is_premium := has_insights
              analyses_this_week := usage_count, analyses_limit
              created_at := customer.signup_date.getD (customer.created_at.getD "") }

/-! ## Concrete fixtures used by witness theorems -/

/-- A stored customer row: id "1", known password "pw", three recorded
analyses. -/
def cW : Customer :=
  { id := "1", email := "a@b.c", password_hash := hash_password "pw"
    shop_name := some "shop", usage_count := some 3, is_premium := some false
    signup_date := some "2024" }

/-- A store holding `cW` with an `insights` entitlement link. -/
def dbW : DB :=
  { customers := [cW], customer_products := [("1", "insights")] }

/-- `dbW` with the `last_login` update failing. -/
def dbW9 : DB := { dbW with update_last_login_fails := true }

/-- A token for `cW` issued at time 0. -/
def tokW : Token := create_access_token "1" "a@b.c" 0

/-- The user info returned for `cW` in `dbW`. -/
def infoW : UserInfo :=
  { user_id := "1", email := "a@b.c", name := some "shop", is_premium := true
    analyses_this_week := 3, analyses_limit := 999999, created_at := "2024" }

/-! ## Rounding lemmas -/

/-- Rounding to cents fixes exact cent amounts. -/
theorem pyRound_two_int (k : ℤ) : pyRound 2 ((k : ℚ) / 100) = (k : ℚ) / 100 := by
  have h : ((k : ℚ) / 100) * 10 ^ 2 = (k : ℚ) := by ring
  rw [pyRound, h, round_intCast]
  norm_num

/-- Rounding to cents commutes with subtracting an exact cent amount. -/
theorem pyRound_two_sub_int_div (x : ℚ) (k : ℤ) :
    pyRound 2 (x - (k : ℚ) / 100) = pyRound 2 x - (k : ℚ) / 100 := by
  have h : (x - (k : ℚ) / 100) * 10 ^ 2 = x * 10 ^ 2 - (k : ℚ) := by ring
  rw [pyRound, h]
  rw [show (x * 10 ^ 2 - (k : ℚ)) = x * 10 ^ 2 - ((k : ℤ) : ℚ) by norm_num]
  rw [round_sub_int, pyRound]
  push_cast
  ring

/-- Every value rounded to cents is an exact cent amount. -/
theorem pyRound_two_eq_int_div (x : ℚ) : ∃ k : ℤ, pyRound 2 x = (k : ℚ) / 100 :=
  ⟨round (x * 10 ^ 2), by rw [pyRound]; norm_num⟩

/-- Evaluation of `calculate_etsy_fees` at the specification's §8 reference
input: note the profit margin is 35.6, not 35.7. -/
lemma calculate_etsy_fees_at_reference :
    calculate_etsy_fees (2999/100) 12 4 false = .ok
      { fees := { transaction_fee := 195/100, listing_fee := 20/100,
                  payment_processing := 115/100, offsite_ads := 0,
                  total_fees := 330/100 },
        net_revenue := 2669/100, total_costs := 16, profit := 1069/100,
        profit_margin := 356/10 } := by
  simp only [calculate_etsy_fees, qdiv]
  norm_num [pyRound, round_eq]
  simp only [Except.map]
  norm_num [round_eq]

/-- `calculate_etsy_fees` never raises: the single division is guarded by
`sale_price > 0`. -/
lemma calculate_etsy_fees_isOk (sp pc sc : ℚ) (o : Bool) :
    ∃ resp, calculate_etsy_fees sp pc sc o = .ok resp := by
  by_cases h : 0 < sp
  · exact ⟨_, by simp [calculate_etsy_fees, qdiv, h, h.ne', Except.map]; rfl⟩
  · exact ⟨_, by simp [calculate_etsy_fees, qdiv, h, Except.map]; rfl⟩

/-! ## Claims about the fee calculator -/

/-- C1 (counterexample): at sale_price=29.99, production_cost=12.0,
shipping_cost=4.0, offsite_ads=false, the calculator does NOT return a
profit margin of 35.7; the claim's profit_margin value is false at this
input. -/
theorem c1_profit_margin_ne_35_7 :
    ¬ ∃ resp, calculate_etsy_fees (2999/100) 12 4 false = .ok resp ∧
        resp.profit_margin = 357/10 := by
  rintro ⟨resp, h, hm⟩
  rw [calculate_etsy_fees_at_reference] at h
  cases h
  norm_num at hm

/-- C1 (amended): for sale_price=29.99, production_cost=12.0,
shipping_cost=4.0, offsite_ads=false, the calculator returns
transaction_fee=1.95, listing_fee=0.20, payment_processing=1.15,
offsite_ads=0.0, total_fees=3.30, net_revenue=26.69, total_costs=16.00,
profit=10.69 and profit_margin=35.6 (not ≈35.7: 10.69/29.99·100 ≈ 35.645
rounds to 35.6 at 1 decimal place). -/
theorem c1_reference_calculation :
    calculate_etsy_fees (2999/100) 12 4 false = .ok
      { fees := { transaction_fee := 195/100, listing_fee := 20/100,
                  payment_processing := 115/100, offsite_ads := 0,
                  total_fees := 330/100 },
        net_revenue := 2669/100, total_costs := 16, profit := 1069/100,
        profit_margin := 356/10 } :=
  calculate_etsy_fees_at_reference

/-- C2: for every valid input (sale_price > 0, costs ≥ 0), switching
offsite_ads from false to true increases total_fees by exactly
round(sale_price·0.15, 2) and decreases profit by exactly the same amount. -/
theorem c2_offsite_ads_delta (sp pc sc : ℚ) (hsp : 0 < sp)
    (_hpc : 0 ≤ pc) (_hsc : 0 ≤ sc) :
    ∃ rt rf : FeeCalculationResponse,
      calculate_etsy_fees sp pc sc true = .ok rt ∧
      calculate_etsy_fees sp pc sc false = .ok rf ∧
      rt.fees.total_fees = rf.fees.total_fees + pyRound 2 (sp * (15 / 100)) ∧
      rt.profit = rf.profit - pyRound 2 (sp * (15 / 100)) := by
  have hne := hsp.ne'
  refine ⟨_, _, by simp [calculate_etsy_fees, qdiv, hsp, hne, Except.map]; rfl,
    by simp [calculate_etsy_fees, qdiv, hsp, hne, Except.map]; rfl, ?_, ?_⟩
  · obtain ⟨kt, ht⟩ := pyRound_two_eq_int_div (sp * (65 / 1000))
    obtain ⟨kp, hp⟩ := pyRound_two_eq_int_div (sp * (3 / 100) + 25 / 100)
    obtain ⟨ko, ho⟩ := pyRound_two_eq_int_div (sp * (15 / 100))
    rw [ht, hp, ho]
    rw [show (kt : ℚ)/100 + 20/100 + (kp : ℚ)/100 + (ko : ℚ)/100
        = ((kt + 20 + kp + ko : ℤ) : ℚ)/100 from by push_cast; ring]
    rw [show (kt : ℚ)/100 + 20/100 + (kp : ℚ)/100
        = ((kt + 20 + kp : ℤ) : ℚ)/100 from by push_cast; ring]
    rw [pyRound_two_int, pyRound_two_int]
    push_cast
    ring
  · obtain ⟨kt, ht⟩ := pyRound_two_eq_int_div (sp * (65 / 1000))
    obtain ⟨kp, hp⟩ := pyRound_two_eq_int_div (sp * (3 / 100) + 25 / 100)
    obtain ⟨ko, ho⟩ := pyRound_two_eq_int_div (sp * (15 / 100))
    obtain ⟨kc, hc⟩ := pyRound_two_eq_int_div (pc + sc)
    rw [ht, hp, ho, hc]
    rw [show (kt : ℚ)/100 + 20/100 + (kp : ℚ)/100 + (ko : ℚ)/100
        = ((kt + 20 + kp + ko : ℤ) : ℚ)/100 from by push_cast; ring]
    rw [show (kt : ℚ)/100 + 20/100 + (kp : ℚ)/100
        = ((kt + 20 + kp : ℤ) : ℚ)/100 from by push_cast; ring]
    rw [pyRound_two_int, pyRound_two_int]
    rw [show sp - ((kt + 20 + kp + ko : ℤ) : ℚ)/100
        = sp - ((kt + 20 + kp : ℤ) : ℚ)/100 - (ko : ℚ)/100 from by push_cast; ring]
    rw [pyRound_two_sub_int_div (sp - ((kt + 20 + kp : ℤ) : ℚ)/100) ko]
    obtain ⟨kn, hn⟩ := pyRound_two_eq_int_div (sp - ((kt + 20 + kp : ℤ) : ℚ)/100)
    rw [hn]
    rw [show (kn : ℚ)/100 - (ko : ℚ)/100 - (kc : ℚ)/100
        = ((kn - ko - kc : ℤ) : ℚ)/100 from by push_cast; ring]
    rw [show (kn : ℚ)/100 - (kc : ℚ)/100 = ((kn - kc : ℤ) : ℚ)/100 from by push_cast; ring]
    rw [pyRound_two_int, pyRound_two_int]
    push_cast
    ring

/-- Witness for C2 at sale_price=30, production_cost=12, shipping_cost=4. -/
theorem c2_offsite_ads_delta_witness :
    ∃ rt rf : FeeCalculationResponse,
      calculate_etsy_fees 30 12 4 true = .ok rt ∧
      calculate_etsy_fees 30 12 4 false = .ok rf ∧
      rt.fees.total_fees = rf.fees.total_fees + pyRound 2 (30 * (15 / 100)) ∧
      rt.profit = rf.profit - pyRound 2 (30 * (15 / 100)) :=
  c2_offsite_ads_delta 30 12 4 (by decide) (by decide) (by decide)

/-- C8: invalid requests (sale_price ≤ 0 or a negative cost) are rejected
with a client validation error before the computation runs, and every
validated request completes without error, so the 500 path is unreachable. -/
theorem c8_validation_and_totality (r : FeeCalculationRequest) :
    (¬ r.valid → calculate_fees r = .error ⟨422, "Invalid request"⟩) ∧
    (r.valid → ∃ resp, calculate_fees r = .ok resp ∧
      calculate_etsy_fees r.sale_price r.production_cost r.shipping_cost
        r.offsite_ads = .ok resp) := by
  constructor
  · intro h
    simp [calculate_fees, h]
  · intro h
    obtain ⟨resp, hr⟩ := calculate_etsy_fees_isOk r.sale_price r.production_cost
      r.shipping_cost r.offsite_ads
    exact ⟨resp, by simp [calculate_fees, h, hr], hr⟩

/-- Witness for C8: a rejected invalid request and an accepted valid one. -/
theorem c8_validation_and_totality_witness :
    calculate_fees ⟨-1, 0, 0, false⟩ = .error ⟨422, "Invalid request"⟩ ∧
    ∃ resp, calculate_fees ⟨30, 12, 4, false⟩ = .ok resp ∧
      calculate_etsy_fees 30 12 4 false = .ok resp :=
  ⟨(c8_validation_and_totality ⟨-1, 0, 0, false⟩).1 (by decide),
   (c8_validation_and_totality ⟨30, 12, 4, false⟩).2 (by decide)⟩

/-! ## Token codec lemmas -/

/-- The configured token lifetime, in seconds. -/
lemma jwt_expiration_seconds :
    settings.JWT_EXPIRATION_HOURS * 3600 = 86400 := by
  rw [show settings.JWT_EXPIRATION_HOURS = 24 from rfl]
  norm_num

/-- A token the server issued verifies before its expiry. -/
lemma verify_create_ok (uid em : String) (T now : ℤ) (h : now < T + 86400) :
    verify_token (create_access_token uid em T) now = .ok ⟨uid, em, T + 86400⟩ := by
  simp only [create_access_token, verify_token, jwt_decode,
    jwt_expiration_seconds]
  rw [if_neg (by simp), if_neg (not_le.mpr h)]

/-- A token the server issued is rejected as expired from its expiry on. -/
lemma verify_create_expired (uid em : String) (T now : ℤ)
    (h : T + 86400 ≤ now) :
    verify_token (create_access_token uid em T) now =
      .error ⟨401, "Token expired"⟩ := by
  simp only [create_access_token, verify_token, jwt_decode,
    jwt_expiration_seconds]
  rw [if_neg (by simp), if_pos h]

/-- A token not signed with the server secret is rejected as invalid. -/
lemma verify_wrong_secret (p : TokenPayload) (s : String) (now : ℤ)
    (hs : s ≠ settings.JWT_SECRET) :
    verify_token (.signed p s) now = .error ⟨401, "Invalid token"⟩ := by
  simp only [verify_token, jwt_decode]
  rw [if_pos hs]

/-! ## Claims about the token codec -/

/-- C4: a token is issued with expiry = issuance time + 24 hours; it
verifies at T+1h, is rejected as expired at T+25h, a tampered token (not
signed with the server secret) is rejected as invalid, and the two
rejections are distinguishable 401 errors. -/
theorem c4_token_lifecycle (user_id email : String) (T : ℤ) :
    (create_access_token user_id email T).payload.exp = T + 24 * 3600 ∧
    verify_token (create_access_token user_id email T) (T + 3600) =
      .ok ⟨user_id, email, T + 24 * 3600⟩ ∧
    verify_token (create_access_token user_id email T) (T + 25 * 3600) =
      .error ⟨401, "Token expired"⟩ ∧
    (∀ (p : TokenPayload) (s : String) (now : ℤ), s ≠ settings.JWT_SECRET →
      verify_token (.signed p s) now = .error ⟨401, "Invalid token"⟩) ∧
    ("Token expired" : String) ≠ "Invalid token" := by
  refine ⟨?_, ?_, ?_, fun p s now hs => verify_wrong_secret p s now hs, by decide⟩
  · simp only [create_access_token, Token.payload, jwt_expiration_seconds]
    norm_num
  · rw [show T + 24 * 3600 = T + 86400 by norm_num]
    exact verify_create_ok user_id email T (T + 3600) (by omega)
  · rw [show T + 25 * 3600 = T + 90000 by norm_num]
    exact verify_create_expired user_id email T (T + 90000) (by omega)

/-- Witness for C4: a token signed with a wrong secret is rejected as
invalid. -/
theorem c4_token_lifecycle_witness :
    verify_token (.signed ⟨"1", "a@b.c", 86400⟩ "evil") 3600 =
      .error ⟨401, "Invalid token"⟩ :=
  (c4_token_lifecycle "1" "a@b.c" 0).2.2.2.1 ⟨"1", "a@b.c", 86400⟩ "evil" 3600
    (by decide)

/-- C10: decoding a token produced by `create_access_token user_id email`
at any time before the 24-hour expiry succeeds and returns the same
`user_id` and `email`. -/
theorem c10_token_roundtrip (user_id email : String) (T now : ℤ)
    (h : now < T + 24 * 3600) :
    verify_token (create_access_token user_id email T) now =
      .ok ⟨user_id, email, T + 24 * 3600⟩ := by
  rw [show T + 24 * 3600 = T + 86400 by norm_num]
  exact verify_create_ok user_id email T now (by omega)

/-- Witness for C10 at issuance time 0, verification time 3600. -/
theorem c10_token_roundtrip_witness :
    verify_token (create_access_token "1" "a@b.c" 0) 3600 =
      .ok ⟨"1", "a@b.c", 0 + 24 * 3600⟩ :=
  c10_token_roundtrip "1" "a@b.c" 0 3600 (by decide)

/-! ## Claims about `get_user_info` -/

/-- C6: a valid token whose embedded account id differs from the requested
user id yields 403, for every store state (in particular whether or not the
requested id exists). -/
theorem c6_forbidden_on_user_mismatch (db : DB) (uid : String) (tok : Token)
    (now : ℤ) (payload : TokenPayload)
    (hv : verify_token tok now = .ok payload)
    (hne : payload.user_id ≠ uid) :
    get_user_info db uid tok now =
      .error ⟨403, "Not authorized to access this user's data"⟩ := by
  simp [get_user_info, hv, hne]

/-- Witness for C6: the token of account "1" requesting account "2". -/
theorem c6_forbidden_on_user_mismatch_witness :
    get_user_info dbW "2" tokW 3600 =
      .error ⟨403, "Not authorized to access this user's data"⟩ :=
  c6_forbidden_on_user_mismatch dbW "2" tokW 3600 ⟨"1", "a@b.c", 86400⟩
    (by decide) (by decide)

/-- The `has_insights` flag computed by `get_user_info` equals membership of
the `insights` tag among the customer's entitlement links. -/
lemma has_insights_eq (db : DB) (uid : String) :
    (if db.product_rows uid ≠ [] then
        ((db.product_rows uid).map (·.2)).contains "insights" else false) =
      decide ("insights" ∈ db.products_of uid) := by
  by_cases hr : db.product_rows uid = []
  · simp [hr, DB.products_of]
  · simp [hr, DB.products_of, List.contains_iff_exists_mem_beq, List.mem_map,
      beq_iff_eq]

/-- Closed form of a successful `get_user_info`. -/
lemma get_user_info_ok (db : DB) (uid : String) (tok : Token) (now : ℤ)
    (payload : TokenPayload) (c : Customer) (rest : List Customer)
    (hv : verify_token tok now = .ok payload) (hid : payload.user_id = uid)
    (hfind : db.find_by_id uid = c :: rest) :
    get_user_info db uid tok now = .ok
      { user_id := c.id, email := c.email, name := c.shop_name
        is_premium := decide ("insights" ∈ db.products_of uid)
        analyses_this_week := c.usage_count.getD 0
        analyses_limit := if "insights" ∈ db.products_of uid then 999999 else 10
        created_at := c.signup_date.getD (c.created_at.getD "") } := by
  simp only [get_user_info, hv, hid, hfind, ne_eq, not_true_eq_false,
    if_false, has_insights_eq, decide_eq_true_eq]

/-- C3: a successful `get_user_info` reports `is_premium = true` exactly
when the account's entitlement links contain the `insights` tag — whatever
the stored `is_premium` flag says — with `analyses_limit` 999999 in that
case and 10 otherwise, and reports the stored `usage_count` as
`analyses_this_week`. -/
theorem c3_premium_from_entitlement (db : DB) (uid : String) (tok : Token)
    (now : ℤ) (info : UserInfo)
    (h : get_user_info db uid tok now = .ok info) :
    (info.is_premium = true ↔ "insights" ∈ db.products_of uid) ∧
    info.analyses_limit =
      (if "insights" ∈ db.products_of uid then 999999 else 10) ∧
    ∃ c rest, db.find_by_id uid = c :: rest ∧
      info.analyses_this_week = c.usage_count.getD 0 := by
  cases hv : verify_token tok now with
  | error e => simp [get_user_info, hv] at h
  | ok payload =>
    by_cases hid : payload.user_id = uid
    · cases hfind : db.find_by_id uid with
      | nil => simp [get_user_info, hv, hid, hfind] at h
      | cons c rest =>
        rw [get_user_info_ok db uid tok now payload c rest hv hid hfind] at h
        simp only [Except.ok.injEq] at h
        subst h
        refine ⟨by simp, rfl, c, rest, rfl, rfl⟩
    · simp [get_user_info, hv, hid] at h

/-- Witness for C3: account "1" of `dbW`, which has the `insights` link and
`usage_count = 3`, while its stored `is_premium` flag is `false`. -/
theorem c3_premium_from_entitlement_witness :
    (infoW.is_premium = true ↔ "insights" ∈ dbW.products_of "1") ∧
    infoW.analyses_limit =
      (if "insights" ∈ dbW.products_of "1" then 999999 else 10) ∧
    ∃ c rest, dbW.find_by_id "1" = c :: rest ∧
      infoW.analyses_this_week = c.usage_count.getD 0 :=
  c3_premium_from_entitlement dbW "1" tokW 3600 infoW (by decide)

/-! ## Claims about `login` and `register` -/

/-- C5: login with an unknown email and login with a known email but wrong
password return the identical error response: 401 with the same message. -/
theorem c5_uniform_login_error (db1 : DB) (e1 p1 : String) (t1 : ℤ)
    (db2 : DB) (e2 p2 : String) (t2 : ℤ)
    (h1 : db1.find_by_email (lower e1) = [])
    (c : Customer) (rest : List Customer)
    (h2 : db2.find_by_email (lower e2) = c :: rest)
    (hpw : verify_password p2 c.password_hash = false) :
    (login db1 e1 p1 t1).1 = .error ⟨401, "Invalid email or password"⟩ ∧
    (login db2 e2 p2 t2).1 = .error ⟨401, "Invalid email or password"⟩ ∧
    (login db1 e1 p1 t1).1 = (login db2 e2 p2 t2).1 := by
  have g1 : (login db1 e1 p1 t1).1 = .error ⟨401, "Invalid email or password"⟩ := by
    simp [login, h1]
  have g2 : (login db2 e2 p2 t2).1 = .error ⟨401, "Invalid email or password"⟩ := by
    simp [login, h2, hpw]
  exact ⟨g1, g2, g1.trans g2.symm⟩

/-- Witness for C5: unknown email against the empty store, wrong password
against `dbW`. -/
theorem c5_uniform_login_error_witness :
    (login {} "x@y.z" "pw" 0).1 = .error ⟨401, "Invalid email or password"⟩ ∧
    (login dbW "a@b.c" "wrong" 0).1 = .error ⟨401, "Invalid email or password"⟩ ∧
    (login {} "x@y.z" "pw" 0).1 = (login dbW "a@b.c" "wrong" 0).1 :=
  c5_uniform_login_error {} "x@y.z" "pw" 0 dbW "a@b.c" "wrong" 0 (by decide)
    cW [] (by decide) (by decide)

/-- C9: when the `last_login` update fails, a login with correct
credentials still succeeds, returns the account summary and token, and the
store is left unchanged. -/
theorem c9_last_login_failure_swallowed (db : DB) (e p : String) (t : ℤ)
    (c : Customer) (rest : List Customer)
    (hfind : db.find_by_email (lower e) = c :: rest)
    (hpw : verify_password p c.password_hash = true)
    (hfail : db.update_last_login_fails = true) :
    login db e p t =
      (.ok { user_id := c.id, email := c.email, name := c.shop_name
             is_premium := c.is_premium.getD false
             access_token := create_access_token c.id c.email t }, db) := by
  simp [login, hfind, hpw, DB.update_last_login, hfail]

/-- Witness for C9: correct credentials against `dbW9`, whose `last_login`
update fails. -/
theorem c9_last_login_failure_swallowed_witness :
    login dbW9 "a@b.c" "pw" 0 =
      (.ok { user_id := cW.id, email := cW.email, name := cW.shop_name
             is_premium := cW.is_premium.getD false
             access_token := create_access_token cW.id cW.email 0 }, dbW9) :=
  c9_last_login_failure_swallowed dbW9 "a@b.c" "pw" 0 cW [] (by decide)
    (by decide) (by decide)

/-- A register call against a store that already holds the submitted
(lowercased) email fails with the duplicate-email conflict and leaves the
store unchanged. -/
lemma register_conflict (db : DB) (e p : String) (n : Option String) (t : ℤ)
    (ak : String) (hne : db.find_by_email (lower e) ≠ []) :
    register db e p n t ak = (.error ⟨400, "Email already registered"⟩, db) := by
  simp [register, hne]

/-- A register call against a store without the submitted email succeeds
and appends exactly one customer row, holding the lowercased email. -/
lemma register_success (db : DB) (e p : String) (n : Option String) (t : ℤ)
    (ak : String) (hnil : db.find_by_email (lower e) = [])
    (hins : db.insert_fails = false) :
    (∃ resp, (register db e p n t ak).1 = .ok resp) ∧
    (register db e p n t ak).2.customers = db.customers ++
      [{ id := toString db.next_id, email := lower e
         password_hash := hash_password p, shop_name := n, access_key := ak
         data_consent := true, consent_updated_at := some (toString t)
         signup_date := some (toString t), usage_count := some 0
         usage_reset_date := some (toString t), is_premium := some false
         is_email_verified := false }] := by
  constructor
  · exact ⟨_, by simp [register, hnil, hins]; rfl⟩
  · simp [register, hnil, hins]

/-- C7: if the store already holds a customer whose stored email equals the
lowercase normalization of the submitted email, `register` fails with the
duplicate-email conflict and creates no record; consequently registering
the same case-insensitive email twice makes the second call fail. -/
theorem c7_duplicate_email_conflict (db : DB) (e p : String)
    (n : Option String) (t : ℤ) (ak : String) :
    ((∃ c ∈ db.customers, c.email = lower e) →
      register db e p n t ak = (.error ⟨400, "Email already registered"⟩, db)) ∧
    (db.insert_fails = false → db.find_by_email (lower e) = [] →
      ∀ (e2 p2 : String) (n2 : Option String) (t2 : ℤ) (ak2 : String),
        lower e2 = lower e →
        (∃ resp, (register db e p n t ak).1 = .ok resp) ∧
        register (register db e p n t ak).2 e2 p2 n2 t2 ak2 =
          (.error ⟨400, "Email already registered"⟩,
            (register db e p n t ak).2)) := by
  constructor
  · rintro ⟨c, hc, he⟩
    have hne : db.find_by_email (lower e) ≠ [] := by
      intro hnil
      rw [DB.find_by_email, List.filter_eq_nil_iff] at hnil
      exact absurd (by simp [he]) (hnil c hc)
    exact register_conflict db e p n t ak hne
  · intro hins hnil e2 p2 n2 t2 ak2 he2
    obtain ⟨hok, hcust⟩ := register_success db e p n t ak hnil hins
    refine ⟨hok, register_conflict _ e2 p2 n2 t2 ak2 ?_⟩
    rw [DB.find_by_email] at hnil ⊢
    rw [hcust, he2, List.filter_append, hnil]
    simp

/-- Witness for C7: registering "a@b.c" against the empty store, then
"A@B.c" against the resulting store. -/
theorem c7_duplicate_email_conflict_witness :
    (∃ resp, (register {} "a@b.c" "pw" none 0 "ak").1 = .ok resp) ∧
    register (register {} "a@b.c" "pw" none 0 "ak").2 "A@B.c" "pw2" none 1 "ak2" =
      (.error ⟨400, "Email already registered"⟩,
        (register {} "a@b.c" "pw" none 0 "ak").2) :=
  (c7_duplicate_email_conflict {} "a@b.c" "pw" none 0 "ak").2 (by decide)
    (by decide) "A@B.c" "pw2" none 1 "ak2" (by decide)
